import Mathlib

/-!
Verification of the live-synchronized bookmark collection in
src/src/components/BookmarkDashboard.tsx.

The component state, the realtime feed handlers, the snapshot fetch, and the
create/delete mutation handlers are embedded shallowly: each React state update
becomes a pure function on an explicit record of the component state, and each
request the component issues to the backing store is reified as a value so that
theorems can speak about what was sent.  String fields keep the source types;
the JavaScript string methods the source uses (trim, startsWith, concatenation)
are modelled over the underlying character list so that every definition is
executable and every concrete instance is decidable.
-/

namespace BookmarkApp

/-- JavaScript string.trim: drop whitespace from both ends. -/
def jsTrim (s : String) : String :=
  ⟨((s.data.dropWhile Char.isWhitespace).reverse.dropWhile Char.isWhitespace).reverse⟩

/-- JavaScript string.startsWith. -/
def jsStartsWith (s p : String) : Bool :=
  p.data.isPrefixOf s.data

/-- JavaScript string concatenation. -/
def jsAppend (a b : String) : String := ⟨a.data ++ b.data⟩

/-- Lexicographic comparison of character lists, used to compare id strings and
timestamp strings (ISO-8601 timestamps compare lexicographically in the same
order as the instants they denote). -/
def charListLt : List Char → List Char → Bool
  | [], [] => false
  | [], _ :: _ => true
  | _ :: _, [] => false
  | a :: as, b :: bs => if a < b then true else if b < a then false else charListLt as bs

/-- Lexicographic order on strings via charListLt. -/
def strLt (a b : String) : Bool := charListLt a.data b.data

/-- A bookmark row, mirroring interface Bookmark in BookmarkDashboard.tsx
(fields id, url, title, created_at, user_id, all strings). -/
structure Bookmark where
  id : String
  url : String
  title : String
  created_at : String
  user_id : String
deriving DecidableEq, Repr

/-- The React state of BookmarkDashboard: the useState hooks bookmarks, url,
title, loading, adding, deletingId, showForm, errorMsg. -/
structure DashboardState where
  bookmarks : List Bookmark
  url : String
  title : String
  loading : Bool
  adding : Bool
  deletingId : Option String
  showForm : Bool
  errorMsg : Option String
deriving DecidableEq, Repr

/-- The initial values of the useState hooks. -/
def initialState : DashboardState :=
  { bookmarks := [], url := "", title := "", loading := true, adding := false,
    deletingId := none, showForm := false, errorMsg := none }

/-- The INSERT postgres_changes handler: if prev.some(b => b.id === payload.new.id)
return prev, else prepend payload.new to prev. -/
def onInsertEvent (payloadNew : Bookmark) (prev : List Bookmark) : List Bookmark :=
  if prev.any (fun b => b.id == payloadNew.id) then prev
  else payloadNew :: prev

/-- The DELETE postgres_changes handler: prev.filter(b => b.id !== payload.old.id). -/
def onDeleteEvent (oldId : String) (prev : List Bookmark) : List Bookmark :=
  prev.filter (fun b => b.id != oldId)

/-- The query issued by fetchBookmarks: from("bookmarks").select().eq("user_id",
user.id).order("created_at", ascending: false). -/
structure FetchRequest where
  table : String
  eqFilters : List (String × String)
  orderBy : String
  ascending : Bool
deriving DecidableEq, Repr

/-- The snapshot request fetchBookmarks sends for a given user id. -/
def fetchBookmarksRequest (userId : String) : FetchRequest :=
  { table := "bookmarks", eqFilters := [("user_id", userId)],
    orderBy := "created_at", ascending := false }

/-- The continuation of fetchBookmarks once the awaited query resolves:
setErrorMsg(null) ran before the await; on error set errorMsg, on data set
bookmarks; finally setLoading(false).  The source applies this unconditionally,
with no epoch or activity guard around the state writes. -/
def fetchBookmarks (result : Except String (List Bookmark)) (s : DashboardState) :
    DashboardState :=
  let s0 := { s with errorMsg := none }
  let s1 := match result with
    | .error e => { s0 with errorMsg := some e }
    | .ok data => { s0 with bookmarks := data }
  { s1 with loading := false }

/-- The row handleAddBookmark inserts: url (finalUrl), title (trimmed), user_id. -/
structure InsertPayload where
  url : String
  title : String
  user_id : String
deriving DecidableEq, Repr

/-- handleAddBookmark.  insertResult is the error field of the awaited insert
response (none on success).  Returns the resulting state, the payload of the
insert request that was issued (none when the empty-field validation returns
early and no request is sent), and whether fetchBookmarks() was invoked
afterwards (the corrective re-fetch in the success branch). -/
def handleAddBookmark (userId : String) (insertResult : Option String)
    (s : DashboardState) : DashboardState × Option InsertPayload × Bool :=
  if jsTrim s.url = "" ∨ jsTrim s.title = "" then (s, none, false)
  else
    let s1 := { s with adding := true, errorMsg := none }
    let t := jsTrim s.url
    let finalUrl :=
      if jsStartsWith t "http://" || jsStartsWith t "https://" then t
      else jsAppend "https://" t
    let payload : InsertPayload := { url := finalUrl, title := jsTrim s.title, user_id := userId }
    match insertResult with
    | some e => ({ s1 with errorMsg := some e, adding := false }, some payload, false)
    | none =>
        ({ s1 with url := "", title := "", showForm := false, adding := false },
         some payload, true)

/-- The request issued by handleDeleteBookmark:
from("bookmarks").delete().eq("id", id). -/
structure DeleteRequest where
  table : String
  eqFilters : List (String × String)
deriving DecidableEq, Repr

/-- The full run of one handleDeleteBookmark call: the state while the delete
request is awaited, the state after it resolves, the request sent, and whether
any re-fetch was triggered. -/
structure DeleteCall where
  during : DashboardState
  after : DashboardState
  request : DeleteRequest
  refetch : Bool
deriving DecidableEq, Repr

/-- handleDeleteBookmark: setDeletingId(id), await the delete filtered by id
alone, setDeletingId(null).  The response of the awaited delete (deleteResult,
including any error it carries) is discarded by the source without inspection,
and no fetch follows. -/
def handleDeleteBookmark (id : String) (deleteResult : Option String)
    (s : DashboardState) : DeleteCall :=
  let s1 := { s with deletingId := some id }
  { during := s1
    after := { s1 with deletingId := none }
    request := { table := "bookmarks", eqFilters := [("id", id)] }
    refetch := false }

/-- The dismiss button of the error alert: onClick setErrorMsg(null). -/
def dismissError (s : DashboardState) : DashboardState := { s with errorMsg := none }

/-- The component state together with the realtime channel opened by the
useEffect: the channel is subscribed on activation and removed by the cleanup. -/
structure SyncState where
  dash : DashboardState
  channelOpen : Bool
deriving DecidableEq, Repr

/-- The useEffect body as far as channel lifecycle goes: the channel is open. -/
def activateSync (s : DashboardState) : SyncState := { dash := s, channelOpen := true }

/-- The useEffect cleanup: supabase.removeChannel(channel).  It closes the
channel and does nothing else — in particular it installs no guard against
still-pending fetchBookmarks calls. -/
def effectCleanup (s : SyncState) : SyncState := { s with channelOpen := false }

/-- Delivery of an INSERT feed event: applied only while the channel is open
(removeChannel stops delivery). -/
def feedInsert (r : Bookmark) (s : SyncState) : SyncState :=
  if s.channelOpen then
    { s with dash := { s.dash with bookmarks := onInsertEvent r s.dash.bookmarks } }
  else s

/-- Delivery of a DELETE feed event: applied only while the channel is open. -/
def feedDelete (oldId : String) (s : SyncState) : SyncState :=
  if s.channelOpen then
    { s with dash := { s.dash with bookmarks := onDeleteEvent oldId s.dash.bookmarks } }
  else s

/-- An in-flight fetchBookmarks call resolving: the continuation writes the
component state unconditionally; nothing in the source consults the channel
state or any epoch before doing so. -/
def resolveSnapshot (result : Except String (List Bookmark)) (s : SyncState) : SyncState :=
  { s with dash := fetchBookmarks result s.dash }

/-- Ordering rule taken from the specification text, for comparison against the
behaviour of the code: the collection is sorted by created_at descending, with
ties among equal created_at values broken by id ascending. -/
def specSorted : List Bookmark → Bool
  | [] => true
  | [_] => true
  | a :: b :: rest =>
      (strLt b.created_at a.created_at ||
        (a.created_at == b.created_at && strLt a.id b.id)) && specSorted (b :: rest)

/-- Sample record with id 1, the older created_at. -/
def bk1 : Bookmark :=
  { id := "1", url := "https://a.example", title := "A",
    created_at := "2024-01-01T00:00:00Z", user_id := "u1" }

/-- Sample record with id 2, the newer created_at. -/
def bk2 : Bookmark :=
  { id := "2", url := "https://b.example", title := "B",
    created_at := "2024-01-02T00:00:00Z", user_id := "u1" }

/-- Claim C1: the INSERT feed handler inserts the record only if no element
with the same id is present — it returns the collection unchanged when the id
is present and prepends the record when it is absent — hence applying Added(r)
twice in sequence yields the same collection as applying it once. -/
theorem C1_added_dedup_idempotent (r : Bookmark) (prev : List Bookmark) :
    onInsertEvent r (onInsertEvent r prev) = onInsertEvent r prev ∧
    (prev.any (fun b => b.id == r.id) = true → onInsertEvent r prev = prev) ∧
    (prev.any (fun b => b.id == r.id) = false → onInsertEvent r prev = r :: prev) := by
  by_cases h : prev.any (fun b => b.id == r.id) = true
  · simp [onInsertEvent, h]
  · simp only [Bool.not_eq_true] at h
    simp [onInsertEvent, h]

/-- Witness for C1: a collection already holding the record with id 1 is
unchanged, of the same length, by Added of that record, and insertion of a
fresh id prepends. -/
theorem C1_added_dedup_idempotent_witness :
    onInsertEvent bk1 (onInsertEvent bk1 [bk1]) = onInsertEvent bk1 [bk1] ∧
    onInsertEvent bk1 [bk1] = [bk1] ∧
    onInsertEvent bk2 [bk1] = bk2 :: [bk1] :=
  ⟨(C1_added_dedup_idempotent bk1 [bk1]).1,
   (C1_added_dedup_idempotent bk1 [bk1]).2.1 (by decide),
   (C1_added_dedup_idempotent bk2 [bk1]).2.2 (by decide)⟩

/-- Claim C2 as stated is false: starting from a snapshot-sorted collection
holding only the newer record bk2, the INSERT feed handler applied to the
older record bk1 prepends it at the front, leaving a collection that violates
the created_at-descending ordering rule. -/
theorem C2_order_counterexample :
    specSorted (fetchBookmarks (.ok [bk2]) initialState).bookmarks = true ∧
    onInsertEvent bk1 (fetchBookmarks (.ok [bk2]) initialState).bookmarks = [bk1, bk2] ∧
    specSorted (onInsertEvent bk1 (fetchBookmarks (.ok [bk2]) initialState).bookmarks)
      = false := by decide

/-- Claim C2 (amended): the snapshot request orders by created_at descending
with no secondary key, and the INSERT feed handler prepends at the front
unconditionally when the id is absent; the ordering rule is therefore preserved
by insertion only when the inserted record is strictly newer than every element
already present, and no id-ascending tie-break is implemented. -/
theorem C2_order_amended (r : Bookmark) (prev : List Bookmark) (u : String)
    (hid : prev.any (fun b => b.id == r.id) = false)
    (hnew : ∀ b ∈ prev, strLt b.created_at r.created_at = true)
    (hs : specSorted prev = true) :
    onInsertEvent r prev = r :: prev ∧
    specSorted (onInsertEvent r prev) = true ∧
    (fetchBookmarksRequest u).orderBy = "created_at" ∧
    (fetchBookmarksRequest u).ascending = false := by
  have h1 : onInsertEvent r prev = r :: prev := by
    simp [onInsertEvent, hid]
  refine ⟨h1, ?_, rfl, rfl⟩
  rw [h1]
  cases prev with
  | nil => rfl
  | cons b rest =>
      have hb : strLt b.created_at r.created_at = true := hnew b (by simp)
      simp [specSorted, hb, hs]

/-- Witness for C2 (amended): inserting the strictly newer record bk2 into the
sorted singleton collection holding bk1 prepends it and keeps the collection
sorted; the concrete snapshot request orders by created_at descending. -/
theorem C2_order_amended_witness :
    onInsertEvent bk2 [bk1] = bk2 :: [bk1] ∧
    specSorted (onInsertEvent bk2 [bk1]) = true ∧
    (fetchBookmarksRequest "u1").orderBy = "created_at" ∧
    (fetchBookmarksRequest "u1").ascending = false :=
  C2_order_amended bk2 [bk1] "u1" (by decide) (by decide) (by decide)

/-- Claim C3: the DELETE feed handler removes every element whose id matches,
keeps every element whose id differs, and when no element with that id is
present it returns the collection exactly unchanged. -/
theorem C3_removed_noop (oldId : String) (prev : List Bookmark) :
    (∀ b ∈ onDeleteEvent oldId prev, b.id ≠ oldId) ∧
    (∀ b ∈ prev, b.id ≠ oldId → b ∈ onDeleteEvent oldId prev) ∧
    ((∀ b ∈ prev, b.id ≠ oldId) → onDeleteEvent oldId prev = prev) := by
  refine ⟨?_, ?_, ?_⟩
  · intro b hb
    have := (List.mem_filter.mp hb).2
    simpa using this
  · intro b hb hne
    exact List.mem_filter.mpr ⟨hb, by simpa using hne⟩
  · intro h
    apply List.filter_eq_self.mpr
    intro b hb
    simpa using h b hb

/-- Witness for C3: removing the absent id 9 from the singleton collection
holding bk1 keeps bk1, removes nothing, and is exactly the identity. -/
theorem C3_removed_noop_witness :
    (∀ b ∈ onDeleteEvent "9" [bk1], b.id ≠ "9") ∧
    bk1 ∈ onDeleteEvent "9" [bk1] ∧
    onDeleteEvent "9" [bk1] = [bk1] :=
  ⟨(C3_removed_noop "9" [bk1]).1,
   (C3_removed_noop "9" [bk1]).2.1 bk1 (by decide) (by decide),
   (C3_removed_noop "9" [bk1]).2.2 (by decide)⟩

/-- Claim C4: handleAddBookmark issues no insert when the trimmed title or URL
is empty and leaves the state untouched; every payload it does issue carries
the trimmed title and the user id, with the secure scheme prepended to a URL
that lacks a recognized scheme and the URL passed through unchanged when it
already carries one; concretely, url example.com with title Example yields an
insert whose url field is the string https followed by colon-slash-slash and
example.com. -/
theorem C4_create_validation (userId : String) (res : Option String) (s : DashboardState) :
    ((jsTrim s.url = "" ∨ jsTrim s.title = "") →
        (handleAddBookmark userId res s).2.1 = none ∧
        (handleAddBookmark userId res s).1 = s) ∧
    (∀ p, (handleAddBookmark userId res s).2.1 = some p →
        p.title = jsTrim s.title ∧ p.user_id = userId ∧
        ((jsStartsWith (jsTrim s.url) "http://" || jsStartsWith (jsTrim s.url) "https://")
            = false → p.url = jsAppend "https://" (jsTrim s.url)) ∧
        ((jsStartsWith (jsTrim s.url) "http://" || jsStartsWith (jsTrim s.url) "https://")
            = true → p.url = jsTrim s.url)) ∧
    (handleAddBookmark "u1" none
        { initialState with url := "example.com", title := "Example" }).2.1 =
      some { url := "https://example.com", title := "Example", user_id := "u1" } := by
  refine ⟨?_, ?_, by decide⟩
  · intro hv
    simp [handleAddBookmark, hv]
  · intro p hp
    by_cases hv : jsTrim s.url = "" ∨ jsTrim s.title = ""
    · simp [handleAddBookmark, hv] at hp
    · by_cases hsch :
        (jsStartsWith (jsTrim s.url) "http://" || jsStartsWith (jsTrim s.url) "https://") = true
      · cases res with
        | none =>
            simp [handleAddBookmark, hv, hsch] at hp
            simp [← hp, hsch]
        | some e =>
            simp [handleAddBookmark, hv, hsch] at hp
            simp [← hp, hsch]
      · rw [Bool.not_eq_true] at hsch
        cases res with
        | none =>
            simp [handleAddBookmark, hv, hsch] at hp
            simp [← hp, hsch]
        | some e =>
            simp [handleAddBookmark, hv, hsch] at hp
            simp [← hp, hsch]

/-- Witness for C4: the empty-title state issues no insert; a scheme-less URL
gets the secure scheme prepended; a URL already carrying the scheme is passed
through as its trimmed self. -/
theorem C4_create_validation_witness :
    (handleAddBookmark "u1" none { initialState with url := "example.com" }).2.1 = none ∧
    (∀ p, (handleAddBookmark "u1" none
        { initialState with url := "example.com", title := "Example" }).2.1 = some p →
        p.url = jsAppend "https://" (jsTrim "example.com")) ∧
    (∀ p, (handleAddBookmark "u1" none
        { initialState with url := "https://x.org", title := "X" }).2.1 = some p →
        p.url = jsTrim "https://x.org") :=
  ⟨((C4_create_validation "u1" none { initialState with url := "example.com" }).1
      (Or.inr (by decide))).1,
   fun p hp => ((C4_create_validation "u1" none
      { initialState with url := "example.com", title := "Example" }).2.1 p hp).2.2.1
      (by decide),
   fun p hp => ((C4_create_validation "u1" none
      { initialState with url := "https://x.org", title := "X" }).2.1 p hp).2.2.2
      (by decide)⟩

/-- Claim C5: whenever the insert succeeds (validation passed and the awaited
insert returned no error), handleAddBookmark invokes fetchBookmarks again — the
corrective re-fetch — and a resolved snapshot replaces the collection wholesale
with the store truth. -/
theorem C5_create_refetch (userId : String) (s : DashboardState)
    (h : ¬ (jsTrim s.url = "" ∨ jsTrim s.title = "")) :
    (handleAddBookmark userId none s).2.2 = true ∧
    (∀ data s2, (fetchBookmarks (.ok data) s2).bookmarks = data) := by
  constructor
  · simp [handleAddBookmark, h]
  · intro data s2
    simp [fetchBookmarks]

/-- Witness for C5 at the concrete create of Scenario C. -/
theorem C5_create_refetch_witness :
    (handleAddBookmark "u1" none
        { initialState with url := "example.com", title := "Example" }).2.2 = true ∧
    (∀ data s2, (fetchBookmarks (.ok data) s2).bookmarks = data) :=
  C5_create_refetch "u1" { initialState with url := "example.com", title := "Example" }
    (by decide)

/-- Claim C6: when the insert fails, handleAddBookmark leaves the bookmark
collection exactly unchanged, records the error message in the user-visible
and dismissible errorMsg state, and triggers no re-fetch. -/
theorem C6_create_failure_atomic (userId e : String) (s : DashboardState)
    (h : ¬ (jsTrim s.url = "" ∨ jsTrim s.title = "")) :
    (handleAddBookmark userId (some e) s).1.bookmarks = s.bookmarks ∧
    (handleAddBookmark userId (some e) s).1.errorMsg = some e ∧
    (handleAddBookmark userId (some e) s).2.2 = false ∧
    (dismissError (handleAddBookmark userId (some e) s).1).errorMsg = none := by
  refine ⟨?_, ?_, ?_, ?_⟩ <;> simp [handleAddBookmark, dismissError, h]

/-- Witness for C6 at a concrete failing create. -/
theorem C6_create_failure_atomic_witness :
    (handleAddBookmark "u1" (some "db down")
        { initialState with url := "example.com", title := "Example" }).1.bookmarks
      = ({ initialState with url := "example.com", title := "Example" } :
          DashboardState).bookmarks ∧
    (handleAddBookmark "u1" (some "db down")
        { initialState with url := "example.com", title := "Example" }).1.errorMsg
      = some "db down" ∧
    (handleAddBookmark "u1" (some "db down")
        { initialState with url := "example.com", title := "Example" }).2.2 = false ∧
    (dismissError (handleAddBookmark "u1" (some "db down")
        { initialState with url := "example.com", title := "Example" }).1).errorMsg
      = none :=
  C6_create_failure_atomic "u1" "db down"
    { initialState with url := "example.com", title := "Example" } (by decide)

/-- Claim C7 as stated is false: a failed delete request is not surfaced.  The
run of handleDeleteBookmark on a delete whose response carries an error is
identical to the run on a successful one, and the resulting error message is
still none — the error is silently dropped. -/
theorem C7_delete_error_counterexample :
    handleDeleteBookmark "1" (some "network down") initialState
      = handleDeleteBookmark "1" none initialState ∧
    (handleDeleteBookmark "1" (some "network down") initialState).after.errorMsg
      = none := by decide

/-- Claim C7 (amended): snapshot fetch failures and insert failures are
surfaced in the dismissible errorMsg state and leave the collection unchanged,
and neither aborts anything; but the response of the delete request is never
inspected, so a failed delete leaves the error message exactly as it was. -/
theorem C7_errors_amended (e userId oldId : String) (r : Option String)
    (s : DashboardState) (h : ¬ (jsTrim s.url = "" ∨ jsTrim s.title = "")) :
    (fetchBookmarks (.error e) s).errorMsg = some e ∧
    (fetchBookmarks (.error e) s).bookmarks = s.bookmarks ∧
    (dismissError (fetchBookmarks (.error e) s)).errorMsg = none ∧
    (handleAddBookmark userId (some e) s).1.errorMsg = some e ∧
    (dismissError (handleAddBookmark userId (some e) s).1).errorMsg = none ∧
    (handleDeleteBookmark oldId r s).after.errorMsg = s.errorMsg := by
  refine ⟨?_, ?_, ?_, ?_, ?_, ?_⟩ <;>
    simp [fetchBookmarks, handleAddBookmark, handleDeleteBookmark, dismissError, h]

/-- Witness for C7 (amended) at concrete failing operations. -/
theorem C7_errors_amended_witness :
    (fetchBookmarks (.error "offline")
        { initialState with url := "example.com", title := "Example" }).errorMsg
      = some "offline" ∧
    (fetchBookmarks (.error "offline")
        { initialState with url := "example.com", title := "Example" }).bookmarks
      = ({ initialState with url := "example.com", title := "Example" } :
          DashboardState).bookmarks ∧
    (dismissError (fetchBookmarks (.error "offline")
        { initialState with url := "example.com", title := "Example" })).errorMsg
      = none ∧
    (handleAddBookmark "u1" (some "offline")
        { initialState with url := "example.com", title := "Example" }).1.errorMsg
      = some "offline" ∧
    (dismissError (handleAddBookmark "u1" (some "offline")
        { initialState with url := "example.com", title := "Example" }).1).errorMsg
      = none ∧
    (handleDeleteBookmark "1" (some "offline")
        { initialState with url := "example.com", title := "Example" }).after.errorMsg
      = ({ initialState with url := "example.com", title := "Example" } :
          DashboardState).errorMsg :=
  C7_errors_amended "offline" "u1" "1" (some "offline")
    { initialState with url := "example.com", title := "Example" } (by decide)

/-- Claim C8 as stated is false: the delete request issued for id 1 filters on
the record id alone; its filter list is exactly the single id pair and the
user pair is absent from it. -/
theorem C8_delete_scope_counterexample :
    (handleDeleteBookmark "1" none initialState).request.eqFilters = [("id", "1")] ∧
    ("user_id", "u1") ∉ (handleDeleteBookmark "1" none initialState).request.eqFilters := by
  decide

/-- Claim C8 (amended): for every id, handleDeleteBookmark issues one delete
request against the bookmarks table filtered by the record id alone; user
scoping is left to the row-level policies of the store, not to the request. -/
theorem C8_delete_scope_amended (id : String) (r : Option String) (s : DashboardState) :
    (handleDeleteBookmark id r s).request.table = "bookmarks" ∧
    (handleDeleteBookmark id r s).request.eqFilters = [("id", id)] := by
  exact ⟨rfl, rfl⟩

/-- Claim C9 as stated is false: there is no epoch guard.  Starting from an
activation with an empty collection, running the cleanup, and then letting the
in-flight snapshot fetch resolve leaves the collection repopulated with the
fetched record — not empty as the claim requires. -/
theorem C9_epoch_counterexample :
    (resolveSnapshot (.ok [bk1]) (effectCleanup (activateSync initialState))).dash.bookmarks
      = [bk1] ∧
    ¬ (resolveSnapshot (.ok [bk1])
        (effectCleanup (activateSync initialState))).dash.bookmarks = [] := by
  decide

/-- Claim C9 (amended): the cleanup only closes the realtime channel — feed
events delivered after it are ignored — but it installs no epoch or guard for
in-flight snapshot fetches, so a fetch resolving after the cleanup still writes
its result into the collection unconditionally. -/
theorem C9_cleanup_amended (r : Bookmark) (oldId : String) (data : List Bookmark)
    (s : SyncState) :
    feedInsert r (effectCleanup s) = effectCleanup s ∧
    feedDelete oldId (effectCleanup s) = effectCleanup s ∧
    (resolveSnapshot (.ok data) (effectCleanup s)).dash.bookmarks = data := by
  refine ⟨?_, ?_, ?_⟩ <;>
    simp [feedInsert, feedDelete, resolveSnapshot, effectCleanup, fetchBookmarks]

/-- Claim C10: handleDeleteBookmark never mutates the bookmark collection —
during and after the awaited delete the collection is exactly the input one —
it only toggles the per-item deleting indicator and issues the single delete
request, with no re-fetch; local removal is what the DELETE feed handler does
when its event later arrives. -/
theorem C10_delete_frame (id : String) (r : Option String) (s : DashboardState) :
    (handleDeleteBookmark id r s).during.bookmarks = s.bookmarks ∧
    (handleDeleteBookmark id r s).after.bookmarks = s.bookmarks ∧
    (handleDeleteBookmark id r s).during.deletingId = some id ∧
    (handleDeleteBookmark id r s).after = { s with deletingId := none } ∧
    (handleDeleteBookmark id r s).refetch = false ∧
    (handleDeleteBookmark id r s).request = { table := "bookmarks", eqFilters := [("id", id)] } ∧
    onDeleteEvent id (handleDeleteBookmark id r s).after.bookmarks
      = s.bookmarks.filter (fun b => b.id != id) := by
  refine ⟨rfl, rfl, rfl, rfl, rfl, rfl, rfl⟩

end BookmarkApp
